import Mathlib

/-
Verification of the Converso voice-translation controller.

The repository contains two variants of the conversation controller:
  * `src/App.tsx` — the main screen, modelled below in namespace `AppMain`;
  * `src/unnamed/part_000` — a near-duplicate variant screen, modelled in
    namespace `Variant`;
plus the HTTP helper `src/src/services/translate.ts` (`translateText`).

The controllers are event-driven and single-threaded: every transition is
triggered by exactly one user action or external callback, and within one
handler the awaited calls run sequentially.  We therefore embed each handler
as a pure function from the session state (plus an environment of external
outcomes: permission result, recognizer start success, TTS availability,
TTS speak success, fetch outcome) to the next state together with the list
of externally visible effects it issues.
-/

namespace Converso

/-- JavaScript `String.prototype.trim()` as used by the controllers:
whitespace removed from both ends of the string. -/
def jsTrim (s : String) : String :=
  String.mk (((s.data.dropWhile Char.isWhitespace).reverse.dropWhile
    Char.isWhitespace).reverse)

/-- Outcome of the `fetch` call inside `translateText`
(`src/src/services/translate.ts`).  `netThrow` covers every thrown path
(network failure, a throwing `res.text()`, or a JSON parse error in
`res.json()`); `response ok tt` is a completed HTTP response with status
flag `res.ok = ok` and `tt` the optional `translatedText` field of the
parsed body (`none` when the field is absent or null). -/
inductive FetchResult
  | netThrow
  | response (ok : Bool) (translatedText : Option String)
deriving DecidableEq, Repr

/-- A fetch outcome that the spec counts as a translator failure:
a thrown error (network or parse) or a non-2xx response. -/
def FetchResult.isFailure : FetchResult → Bool
  | .netThrow => true
  | .response ok _ => !ok

/-- `translateText` from `src/src/services/translate.ts`.  The whole body is
wrapped in try/catch and every path returns a string, so the embedding is a
total function: a thrown fetch/parse error and a non-2xx response both fall
back to the input `text`; a 2xx response without a `translatedText` field
also yields `text` (the `data?.translatedText ?? text` line). -/
def translateText (text : String) (_target : String) : FetchResult → String
  | .netThrow => text
  | .response false _ => text
  | .response true none => text
  | .response true (some t) => t

/-- Target languages of `src/App.tsx` (`type TargetLang`). -/
inductive TargetLang
  | en | de | ru | nl | pl | af | fr
deriving DecidableEq, Repr

/-- The language code string sent to the translator for a target language. -/
def TargetLang.code : TargetLang → String
  | .en => "en"
  | .de => "de"
  | .ru => "ru"
  | .nl => "nl"
  | .pl => "pl"
  | .af => "af"
  | .fr => "fr"

/-- `langToLocale` from `src/App.tsx`. -/
def langToLocale : TargetLang → String
  | .en => "en-US"
  | .de => "de-DE"
  | .ru => "ru-RU"
  | .nl => "nl-NL"
  | .pl => "pl-PL"
  | .af => "af-ZA"
  | .fr => "fr-FR"

/-- Externally visible effects issued by the controllers.
`translateCall text whileListening` records an invocation of the translator
collaborator together with the value of the `isListening` flag at the moment
of the call; `ttsSpeak text locale` records a successful hand-off of `text`
to the synthesizer (locale `""` when the variant controller speaks with the
device default). -/
inductive Eff
  | permRequest
  | alertPermission
  | alertVoiceError
  | alertNoTTS
  | alertTranslateTTS
  | voiceStart
  | voiceStop
  | translateCall (text : String) (whileListening : Bool)
  | ttsSpeak (text : String) (locale : String)
deriving DecidableEq, Repr

/-- Environment of one handler run: outcomes of the external calls the
handler may make.  `permOk` — result of the microphone-permission request;
`voiceStartFails` — whether `Voice.start` throws; `ttsAvailable` — the
`TTS.available` capability flag of `src/App.tsx`; `speakFails` — whether
the `speak` call throws; `fetch` — outcome of the translation HTTP call. -/
structure Env where
  permOk : Bool
  voiceStartFails : Bool
  ttsAvailable : Bool
  speakFails : Bool
  fetch : FetchResult
deriving DecidableEq, Repr

/-- Number of recognizer `start()` calls recorded in an effect list. -/
def countStarts : List Eff → Nat
  | [] => 0
  | .voiceStart :: r => countStarts r + 1
  | _ :: r => countStarts r

/-- Number of "Text-to-Speech not available" capability warnings recorded in
an effect list. -/
def countWarnings : List Eff → Nat
  | [] => 0
  | .alertNoTTS :: r => countWarnings r + 1
  | _ :: r => countWarnings r

/-- `true` when an effect is not a translator call made while the
`isListening` flag was set. -/
def notTranslateWhileListening : Eff → Bool
  | .translateCall _ b => !b
  | _ => true

end Converso

namespace Converso.AppMain

/-- Session state of the `src/App.tsx` controller: the React state fields
`isListening`, `isSpeaking`, `handsFree`, `heard`, `translated`,
`targetLang`, plus the ref `lastPartial.current` (called `interim` here
because of naming restrictions in this development). -/
structure St where
  isListening : Bool
  isSpeaking : Bool
  handsFree : Bool
  heard : String
  translated : String
  interim : String
  targetLang : TargetLang
deriving DecidableEq, Repr

/-- Initial state of the `src/App.tsx` screen (`useState` initialisers). -/
def init : St := ⟨false, false, false, "", "", "", .en⟩

/-- `startListening` from `src/App.tsx`: a no-op when already listening or
speaking; asks for microphone permission (alerting and stopping on denial);
then clears `lastPartial` and `heard`, calls `Voice.start('')` and sets
`isListening` — when `Voice.start` throws, the clears have already happened,
an alert is shown and `isListening` stays false. -/
def startListening (env : Env) (s : St) : St × List Eff :=
  if s.isListening || s.isSpeaking then (s, [])
  else if !env.permOk then (s, [.permRequest, .alertPermission])
  else if env.voiceStartFails then
    ({ s with interim := "", heard := "" },
      [.permRequest, .voiceStart, .alertVoiceError])
  else
    ({ s with interim := "", heard := "", isListening := true },
      [.permRequest, .voiceStart])

/-- `stopListening` from `src/App.tsx`: `Voice.stop()` with any error
swallowed, then `isListening := false`. -/
def stopListening (s : St) : St × List Eff :=
  ({ s with isListening := false }, [.voiceStop])

/-- `translateAndSpeak` from `src/App.tsx`: trims the input and returns
immediately when blank; stops the recognizer; calls the translator and
stores the result in `translated`; when TTS is unavailable it alerts and
(in hands-free mode) restarts listening; otherwise it sets `isSpeaking` and
hands the text to the synthesizer — a throwing `speak` is caught, alerted,
`isSpeaking` is cleared and hands-free mode restarts listening. -/
def translateAndSpeak (env : Env) (text : String) (s : St) : St × List Eff :=
  let msg := jsTrim text
  if msg = "" then (s, [])
  else
    let p := stopListening s
    let out := translateText msg p.1.targetLang.code env.fetch
    let e2 := [Eff.translateCall msg p.1.isListening]
    let s2 := { p.1 with translated := out }
    if !env.ttsAvailable then
      let q := if s2.handsFree then startListening env s2 else (s2, [])
      (q.1, p.2 ++ e2 ++ [Eff.alertNoTTS] ++ q.2)
    else if env.speakFails then
      let s3 := { s2 with isSpeaking := false }
      let q := if s3.handsFree then startListening env s3 else (s3, [])
      (q.1, p.2 ++ e2 ++ [Eff.alertTranslateTTS] ++ q.2)
    else
      ({ s2 with isSpeaking := true },
        p.2 ++ e2 ++ [Eff.ttsSpeak out (langToLocale s2.targetLang)])

/-- `Voice.onSpeechPartialResults` from `src/App.tsx`: a truthy (non-empty)
first value updates both the `lastPartial` ref and `heard`. -/
def onSpeechInterimResults (v : Option String) (s : St) : St × List Eff :=
  match v with
  | some t => if t = "" then (s, []) else ({ s with interim := t, heard := t }, [])
  | none => (s, [])

/-- `Voice.onSpeechResults` from `src/App.tsx`: the final text is the first
event value, falling back to the `lastPartial` ref, trimmed; when non-empty
it is stored in `heard` and, in hands-free mode with TTS available, fed to
`translateAndSpeak`. -/
def onSpeechResults (env : Env) (v : Option String) (s : St) : St × List Eff :=
  let finalText := jsTrim (v.getD s.interim)
  if finalText = "" then (s, [])
  else
    let s1 := { s with heard := finalText }
    if s1.handsFree && env.ttsAvailable then translateAndSpeak env finalText s1
    else (s1, [])

/-- `Voice.onSpeechError` from `src/App.tsx`: in hands-free mode it calls
`startListening` (which is guarded); it performs nothing else — in
particular it never clears `isListening`. -/
def onSpeechError (env : Env) (s : St) : St × List Eff :=
  if s.handsFree then startListening env s else (s, [])

/-- The `tts-finish` listener from `src/App.tsx`: clears `isSpeaking` and,
in hands-free mode, calls `startListening`. -/
def ttsFinish (env : Env) (s : St) : St × List Eff :=
  let s1 := { s with isSpeaking := false }
  if s1.handsFree then startListening env s1 else (s1, [])

/-- The `tts-cancel` listener from `src/App.tsx`: clears `isSpeaking`. -/
def ttsCancel (s : St) : St × List Eff :=
  ({ s with isSpeaking := false }, [])

/-- The "Translate & Speak" button of `src/App.tsx`: disabled when `heard`
is empty, otherwise runs `translateAndSpeak heard`. -/
def pressTranslateSpeak (env : Env) (s : St) : St × List Eff :=
  if s.heard = "" then (s, []) else translateAndSpeak env s.heard s

/-- The hands-free toggle of `src/App.tsx`: disabled when TTS is
unavailable. -/
def toggleHandsFree (env : Env) (s : St) : St × List Eff :=
  if env.ttsAvailable then ({ s with handsFree := !s.handsFree }, []) else (s, [])

/-- Selecting a target-language chip in `src/App.tsx`. -/
def setLang (l : TargetLang) (s : St) : St × List Eff :=
  ({ s with targetLang := l }, [])

/-- The user actions and external callbacks that can reach the `src/App.tsx`
controller. -/
inductive Event
  | pressStart
  | pressStop
  | interimResults (v : Option String)
  | results (v : Option String)
  | speechError
  | finish
  | cancel
  | pressSpeak
  | toggleHF
  | chooseLang (l : TargetLang)
deriving DecidableEq, Repr

/-- One controller transition of `src/App.tsx`, dispatching an event to its
handler. -/
def step (env : Env) (ev : Event) (s : St) : St × List Eff :=
  match ev with
  | .pressStart => startListening env s
  | .pressStop => stopListening s
  | .interimResults v => onSpeechInterimResults v s
  | .results v => onSpeechResults env v s
  | .speechError => onSpeechError env s
  | .finish => ttsFinish env s
  | .cancel => ttsCancel s
  | .pressSpeak => pressTranslateSpeak env s
  | .toggleHF => toggleHandsFree env s
  | .chooseLang l => setLang l s

/-- Run of the `src/App.tsx` controller over a sequence of events, each with
its own environment; collects all issued effects in order. -/
def run : List (Env × Event) → St → St × List Eff
  | [], s => (s, [])
  | (env, ev) :: rest, s =>
    let p := step env ev s
    let q := run rest p.1
    (q.1, p.2 ++ q.2)

end Converso.AppMain

namespace Converso.Variant

/-- Session state of the `src/unnamed/part_000` variant controller: the
React state fields `isListening`, `isSpeaking`, `handsFree`, `heard` and
`targetLang` (an `'en' | 'es'` toggle, modelled by `targetEn`).  This
variant keeps no `translated` state field. -/
structure St where
  isListening : Bool
  isSpeaking : Bool
  handsFree : Bool
  heard : String
  targetEn : Bool
deriving DecidableEq, Repr

/-- Initial state of the variant screen: note `handsFree` starts `true`. -/
def init : St := ⟨false, false, true, "", true⟩

/-- The language code the variant passes to the translator. -/
def St.langCode (s : St) : String := if s.targetEn then "en" else "es"

/-- `startListening` from `src/unnamed/part_000`: no guard on the current
flags; returns silently on permission denial; clears `heard`, calls
`Voice.start('en-US')` and sets `isListening` — a throwing `Voice.start`
leaves `heard` cleared and sets `isListening := false`. -/
def startListening (env : Env) (s : St) : St × List Eff :=
  if !env.permOk then (s, [.permRequest])
  else if env.voiceStartFails then
    ({ s with heard := "", isListening := false }, [.permRequest, .voiceStart])
  else
    ({ s with heard := "", isListening := true }, [.permRequest, .voiceStart])

/-- `stopListening` from `src/unnamed/part_000`: `Voice.stop()` then (in a
`finally`) `isListening := false`. -/
def stopListening (s : St) : St × List Eff :=
  ({ s with isListening := false }, [.voiceStop])

/-- `speak` from `src/unnamed/part_000`: empty text is a no-op; otherwise
sets `isSpeaking` and calls `Tts.speak(text)` (no locale argument) — a
throwing `Tts.speak` is caught and `isSpeaking` is set back to false. -/
def speak (env : Env) (text : String) (s : St) : St × List Eff :=
  if text = "" then (s, [])
  else if env.speakFails then ({ s with isSpeaking := false }, [])
  else ({ s with isSpeaking := true }, [.ttsSpeak text ""])

/-- `translateAndSpeak` from `src/unnamed/part_000`: calls the translator
(the catch branch is unreachable because `translateText` never throws) and
speaks `translated || text`.  It does not stop the recognizer and does not
trim its input. -/
def translateAndSpeak (env : Env) (text : String) (s : St) : St × List Eff :=
  let out := translateText text s.langCode env.fetch
  let spoken := if out = "" then text else out
  let p := speak env spoken s
  (p.1, Eff.translateCall text s.isListening :: p.2)

/-- `onSpeechResults` from `src/unnamed/part_000`: records
`e.value?.[0] ?? ''` in `heard`; when hands-free it stops listening and
then translates and speaks the text. -/
def onSpeechResults (env : Env) (v : Option String) (s : St) : St × List Eff :=
  let t := v.getD ""
  let s1 := { s with heard := t }
  if !s1.handsFree then (s1, [])
  else
    let p := stopListening s1
    let q := translateAndSpeak env t p.1
    (q.1, p.2 ++ q.2)

/-- `onSpeechError` from `src/unnamed/part_000`: clears `isListening` and,
in hands-free mode, restarts listening. -/
def onSpeechError (env : Env) (s : St) : St × List Eff :=
  let s1 := { s with isListening := false }
  if s1.handsFree then startListening env s1 else (s1, [])

/-- The `tts-finish` / `tts-cancel` / `tts-error` listeners of
`src/unnamed/part_000`: each sets `isSpeaking := false`. -/
def ttsEnded (s : St) : St × List Eff :=
  ({ s with isSpeaking := false }, [])

/-- The microphone button of `src/unnamed/part_000` (`onPressMic`). -/
def pressMic (env : Env) (s : St) : St × List Eff :=
  if s.isListening then stopListening s else startListening env s

/-- The "Speak" button of `src/unnamed/part_000` (`onPressSpeakHeard`):
returns when `heard` is empty, otherwise translates and speaks it without
stopping the recognizer. -/
def pressSpeakHeard (env : Env) (s : St) : St × List Eff :=
  if s.heard = "" then (s, []) else translateAndSpeak env s.heard s

/-- The hands-free toggle of `src/unnamed/part_000` (never disabled). -/
def toggleHandsFree (s : St) : St × List Eff :=
  ({ s with handsFree := !s.handsFree }, [])

/-- The language toggle of `src/unnamed/part_000`. -/
def toggleLang (s : St) : St × List Eff :=
  ({ s with targetEn := !s.targetEn }, [])

/-- The user actions and external callbacks that can reach the variant
controller. -/
inductive Event
  | pressMicBtn
  | results (v : Option String)
  | speechError
  | ttsEndedEvt
  | pressSpeakBtn
  | toggleHF
  | toggleLangBtn
deriving DecidableEq, Repr

/-- One controller transition of the variant screen. -/
def step (env : Env) (ev : Event) (s : St) : St × List Eff :=
  match ev with
  | .pressMicBtn => pressMic env s
  | .results v => onSpeechResults env v s
  | .speechError => onSpeechError env s
  | .ttsEndedEvt => ttsEnded s
  | .pressSpeakBtn => pressSpeakHeard env s
  | .toggleHF => toggleHandsFree s
  | .toggleLangBtn => toggleLang s

/-- Run of the variant controller over a sequence of events. -/
def run : List (Env × Event) → St → St × List Eff
  | [], s => (s, [])
  | (env, ev) :: rest, s =>
    let p := step env ev s
    let q := run rest p.1
    (q.1, p.2 ++ q.2)

end Converso.Variant

namespace Converso

/-- Resources held by a mounted `src/App.tsx` screen, as touched by the
`useEffect` cleanup: the recognizer native session/module, the `Voice.*`
handler assignments, the two TTS event subscriptions, and whether the
synthesizer is currently producing audio. -/
structure Resources where
  recognizerAlive : Bool
  voiceHandlersAttached : Bool
  finishSubAttached : Bool
  cancelSubAttached : Bool
  synthesizing : Bool
deriving DecidableEq, Repr

/-- `Voice.destroy()` with its rejection swallowed (`.catch(() => {})`). -/
def destroyVoice (r : Resources) : Resources := { r with recognizerAlive := false }

/-- `Voice.removeAllListeners()`. -/
def removeVoiceListeners (r : Resources) : Resources :=
  { r with voiceHandlersAttached := false }

/-- `fin.remove()` — removing the `tts-finish` subscription (a no-op handle
when TTS is not linked). -/
def removeFinishSub (r : Resources) : Resources := { r with finishSubAttached := false }

/-- `can.remove()` — removing the `tts-cancel` subscription. -/
def removeCancelSub (r : Resources) : Resources := { r with cancelSubAttached := false }

/-- `Tts.stop()` wrapped in try/catch. -/
def stopTts (r : Resources) : Resources := { r with synthesizing := false }

/-- The `useEffect` cleanup of `src/App.tsx`, in source order: destroy the
recognizer, remove all `Voice` listeners, remove both TTS subscriptions,
stop the synthesizer.  Every call either succeeds or has its error
swallowed, so the teardown is total. -/
def teardown (r : Resources) : Resources :=
  stopTts (removeCancelSub (removeFinishSub (removeVoiceListeners (destroyVoice r))))

end Converso

namespace Converso

/-- Environment with permission granted, a working recognizer, linked TTS,
a non-throwing synthesizer, and a translator answering `"hola"`. -/
def envOk : Env := ⟨true, false, true, false, .response true (some "hola")⟩

/-- Environment like `envOk` except the translation HTTP call throws. -/
def envNetFail : Env := ⟨true, false, true, false, .netThrow⟩

/-- Environment like `envOk` except the TTS native module is not linked. -/
def envNoTts : Env := ⟨true, false, false, false, .response true (some "hola")⟩

/-- `true` when the state does not have both flags raised. -/
def mutexOk (s : AppMain.St) : Bool := !(s.isListening && s.isSpeaking)

theorem startListening_mutex (env : Env) (s : AppMain.St)
    (h : mutexOk s = true) : mutexOk (AppMain.startListening env s).1 = true := by
  cases hl : s.isListening <;> cases hs : s.isSpeaking <;>
    cases hp : env.permOk <;> cases hv : env.voiceStartFails <;>
      simp_all [mutexOk, AppMain.startListening]

theorem translateAndSpeak_mutex (env : Env) (t : String) (s : AppMain.St)
    (h : mutexOk s = true) :
    mutexOk (AppMain.translateAndSpeak env t s).1 = true := by
  by_cases hm : jsTrim t = ""
  · simpa [AppMain.translateAndSpeak, hm] using h
  · cases hts : env.ttsAvailable <;> cases hsf : env.speakFails <;>
      cases hhf : s.handsFree <;> cases hsp : s.isSpeaking <;>
        cases hp : env.permOk <;> cases hv : env.voiceStartFails <;>
          simp [AppMain.translateAndSpeak, AppMain.stopListening,
            AppMain.startListening, mutexOk, hm, hts, hsf, hhf, hsp, hp, hv]

theorem onSpeechResults_mutex (env : Env) (v : Option String) (s : AppMain.St)
    (h : mutexOk s = true) :
    mutexOk (AppMain.onSpeechResults env v s).1 = true := by
  unfold AppMain.onSpeechResults
  by_cases hm : jsTrim (v.getD s.interim) = ""
  · simpa [hm] using h
  · by_cases hc : (s.handsFree && env.ttsAvailable) = true
    · have hmx : mutexOk ({ s with heard := jsTrim (v.getD s.interim) } : AppMain.St) = true := by
        simpa [mutexOk] using h
      simpa [hm, hc] using
        translateAndSpeak_mutex env (jsTrim (v.getD s.interim)) _ hmx
    · simpa [hm, hc, mutexOk] using h

theorem onSpeechError_mutex (env : Env) (s : AppMain.St)
    (h : mutexOk s = true) :
    mutexOk (AppMain.onSpeechError env s).1 = true := by
  unfold AppMain.onSpeechError
  split
  · exact startListening_mutex _ _ h
  · exact h

theorem ttsFinish_mutex (env : Env) (s : AppMain.St) :
    mutexOk (AppMain.ttsFinish env s).1 = true := by
  unfold AppMain.ttsFinish
  simp only []
  split
  · exact startListening_mutex _ _ (by simp [mutexOk])
  · simp [mutexOk]

theorem step_mutex (env : Env) (ev : AppMain.Event) (s : AppMain.St)
    (h : mutexOk s = true) : mutexOk (AppMain.step env ev s).1 = true := by
  cases ev with
  | pressStart => exact startListening_mutex _ _ h
  | pressStop => simp [AppMain.step, AppMain.stopListening, mutexOk]
  | interimResults v =>
    cases v with
    | none => simpa [AppMain.step, AppMain.onSpeechInterimResults] using h
    | some t =>
      by_cases ht : t = "" <;>
        simpa [AppMain.step, AppMain.onSpeechInterimResults, ht, mutexOk] using h
  | results v => exact onSpeechResults_mutex _ _ _ h
  | speechError => exact onSpeechError_mutex _ _ h
  | finish => exact ttsFinish_mutex _ _
  | cancel => simp [AppMain.step, AppMain.ttsCancel, mutexOk]
  | pressSpeak =>
    by_cases hh : s.heard = ""
    · simpa [AppMain.step, AppMain.pressTranslateSpeak, hh] using h
    · simp only [AppMain.step, AppMain.pressTranslateSpeak, hh, ite_false]
      exact translateAndSpeak_mutex _ _ _ h
  | toggleHF =>
    by_cases ht : env.ttsAvailable <;>
      simpa [AppMain.step, AppMain.toggleHandsFree, ht, mutexOk] using h
  | chooseLang l => simpa [AppMain.step, AppMain.setLang, mutexOk] using h

theorem run_mutex (tr : List (Env × AppMain.Event)) (s : AppMain.St)
    (h : mutexOk s = true) : mutexOk (AppMain.run tr s).1 = true := by
  induction tr generalizing s with
  | nil => simpa [AppMain.run] using h
  | cons p rest ih =>
    obtain ⟨env, ev⟩ := p
    simpa [AppMain.run] using ih _ (step_mutex env ev s h)

end Converso

namespace Converso

theorem startListening_effOk (env : Env) (s : AppMain.St) :
    (AppMain.startListening env s).2.all notTranslateWhileListening = true := by
  cases hl : s.isListening <;> cases hs : s.isSpeaking <;>
    cases hp : env.permOk <;> cases hv : env.voiceStartFails <;>
      simp [AppMain.startListening, notTranslateWhileListening, hl, hs, hp, hv]

theorem translateAndSpeak_effOk (env : Env) (t : String) (s : AppMain.St) :
    (AppMain.translateAndSpeak env t s).2.all notTranslateWhileListening = true := by
  by_cases hm : jsTrim t = ""
  · simp [AppMain.translateAndSpeak, hm]
  · cases hts : env.ttsAvailable <;> cases hsf : env.speakFails <;>
      cases hhf : s.handsFree <;> cases hsp : s.isSpeaking <;>
        cases hp : env.permOk <;> cases hv : env.voiceStartFails <;>
          simp [AppMain.translateAndSpeak, AppMain.stopListening,
            AppMain.startListening, notTranslateWhileListening,
            hm, hts, hsf, hhf, hsp, hp, hv]

theorem onSpeechResults_effOk (env : Env) (v : Option String) (s : AppMain.St) :
    (AppMain.onSpeechResults env v s).2.all notTranslateWhileListening = true := by
  unfold AppMain.onSpeechResults
  by_cases hm : jsTrim (v.getD s.interim) = ""
  · simp [hm]
  · by_cases hc : (s.handsFree && env.ttsAvailable) = true
    · simpa [hm, hc] using
        translateAndSpeak_effOk env (jsTrim (v.getD s.interim))
          { s with heard := jsTrim (v.getD s.interim) }
    · simp [hm, hc]

theorem onSpeechError_effOk (env : Env) (s : AppMain.St) :
    (AppMain.onSpeechError env s).2.all notTranslateWhileListening = true := by
  unfold AppMain.onSpeechError
  split
  · exact startListening_effOk _ _
  · simp

theorem ttsFinish_effOk (env : Env) (s : AppMain.St) :
    (AppMain.ttsFinish env s).2.all notTranslateWhileListening = true := by
  unfold AppMain.ttsFinish
  simp only []
  split
  · exact startListening_effOk _ _
  · simp

theorem pressTranslateSpeak_effOk (env : Env) (s : AppMain.St) :
    (AppMain.pressTranslateSpeak env s).2.all notTranslateWhileListening = true := by
  unfold AppMain.pressTranslateSpeak
  split
  · simp
  · exact translateAndSpeak_effOk _ _ _

theorem step_effOk (env : Env) (ev : AppMain.Event) (s : AppMain.St) :
    (AppMain.step env ev s).2.all notTranslateWhileListening = true := by
  cases ev with
  | pressStart => exact startListening_effOk _ _
  | pressStop => simp [AppMain.step, AppMain.stopListening, notTranslateWhileListening]
  | interimResults v =>
    cases v with
    | none => simp [AppMain.step, AppMain.onSpeechInterimResults]
    | some t =>
      by_cases ht : t = "" <;>
        simp [AppMain.step, AppMain.onSpeechInterimResults, ht]
  | results v => exact onSpeechResults_effOk env v s
  | speechError => exact onSpeechError_effOk env s
  | finish => exact ttsFinish_effOk env s
  | cancel => simp [AppMain.step, AppMain.ttsCancel]
  | pressSpeak => exact pressTranslateSpeak_effOk env s
  | toggleHF =>
    by_cases ht : env.ttsAvailable <;>
      simp [AppMain.step, AppMain.toggleHandsFree, ht]
  | chooseLang l => simp [AppMain.step, AppMain.setLang]

theorem run_effOk (tr : List (Env × AppMain.Event)) (s : AppMain.St) :
    (AppMain.run tr s).2.all notTranslateWhileListening = true := by
  induction tr generalizing s with
  | nil => simp [AppMain.run]
  | cons p rest ih =>
    obtain ⟨env, ev⟩ := p
    have h1 := step_effOk env ev s
    have h2 := ih (AppMain.step env ev s).1
    simp [AppMain.run, List.all_append, h1, h2]

end Converso

namespace Converso

/-- A variant-controller trace: turn hands-free off, start listening, receive
a final result `"hi"` (recorded but not auto-spoken because hands-free is
off), then press the Speak button. -/
def mutexViolationTrace : List (Env × Variant.Event) :=
  [(envOk, .toggleHF), (envOk, .pressMicBtn),
   (envOk, .results (some "hi")), (envOk, .pressSpeakBtn)]

/-- C1 counterexample: in the `src/unnamed/part_000` variant, pressing the
Speak button while a listening session is active leaves `isListening` and
`isSpeaking` simultaneously true, because its `translateAndSpeak` never
stops the recognizer.  Evaluated on a concrete event trace from the initial
state. -/
theorem variant_mutex_violation :
    (Variant.run mutexViolationTrace Variant.init).1.isListening = true ∧
    (Variant.run mutexViolationTrace Variant.init).1.isSpeaking = true := by
  decide

/-- C1 (amended): in the `src/App.tsx` controller, for every sequence of
controller operations and external events, `isListening` and `isSpeaking`
are never simultaneously true. -/
theorem appMain_mutual_exclusion (tr : List (Env × AppMain.Event)) :
    ((AppMain.run tr AppMain.init).1.isListening &&
      (AppMain.run tr AppMain.init).1.isSpeaking) = false := by
  have h := run_mutex tr AppMain.init (by decide)
  cases hl : (AppMain.run tr AppMain.init).1.isListening <;>
    cases hs : (AppMain.run tr AppMain.init).1.isSpeaking <;>
      simp_all [mutexOk]

/-- C2: for every input text, target locale and failing fetch outcome
(thrown network/parse error or non-2xx response), `translateText` returns
the original input text unchanged (the embedding is total, reflecting that
the function never throws outward), and consequently the variant
controller's `translateAndSpeak` hands exactly the original input text to
the synthesizer. -/
theorem translateText_failure_identity (text target : String)
    (fr : FetchResult) (env : Env) (s : Variant.St)
    (hfail : fr.isFailure = true) (hfetch : env.fetch = fr)
    (hspeak : env.speakFails = false) (htext : text ≠ "") :
    translateText text target fr = text ∧
    (Variant.translateAndSpeak env text s).2 =
      [Eff.translateCall text s.isListening, Eff.ttsSpeak text ""] ∧
    (Variant.translateAndSpeak env text s).1 =
      { s with isSpeaking := true } := by
  have hid : ∀ tgt : String, translateText text tgt fr = text := by
    intro tgt
    cases fr with
    | netThrow => rfl
    | response ok tt =>
      cases ok with
      | false => rfl
      | true => simp [FetchResult.isFailure] at hfail
  refine ⟨hid target, ?_, ?_⟩ <;>
    simp [Variant.translateAndSpeak, Variant.speak, hfetch, hid, htext, hspeak]

/-- Witness for C2 at input `"hello"`, target `"es"`, a thrown fetch. -/
theorem translateText_failure_identity_witness :
    translateText "hello" "es" FetchResult.netThrow = "hello" ∧
    (Variant.translateAndSpeak envNetFail "hello" Variant.init).2 =
      [Eff.translateCall "hello" Variant.init.isListening,
       Eff.ttsSpeak "hello" ""] ∧
    (Variant.translateAndSpeak envNetFail "hello" Variant.init).1 =
      { Variant.init with isSpeaking := true } :=
  translateText_failure_identity "hello" "es" FetchResult.netThrow envNetFail
    Variant.init rfl rfl rfl (by decide)

/-- C9: the `src/App.tsx` unmount teardown, run from any resource state
(including the fresh never-started one), destroys the recognizer, releases
the `Voice` handler assignments and both TTS subscriptions, and stops the
synthesizer; and it is idempotent — running it twice gives the same fully
torn-down state as running it once.  The embedding is total because every
call in the cleanup has its error swallowed. -/
theorem teardown_idempotent_complete (r : Resources) :
    teardown (teardown r) = teardown r ∧
    (teardown r).recognizerAlive = false ∧
    (teardown r).voiceHandlersAttached = false ∧
    (teardown r).finishSubAttached = false ∧
    (teardown r).cancelSubAttached = false ∧
    (teardown r).synthesizing = false := by
  simp [teardown, stopTts, removeCancelSub, removeFinishSub,
    removeVoiceListeners, destroyVoice]

/-- C10: `translateAndSpeak` in `src/App.tsx`, called on a text that trims
to the empty string, returns immediately: the state is unchanged (no field
modified) and no effect is issued — no recognizer stop, no translator call,
no synthesizer call. -/
theorem translateAndSpeak_blank_noop (env : Env) (text : String)
    (s : AppMain.St) (h : jsTrim text = "") :
    AppMain.translateAndSpeak env text s = (s, []) := by
  unfold AppMain.translateAndSpeak
  simp [h]

/-- Witness for C10 on the whitespace-only input `"   "`. -/
theorem translateAndSpeak_blank_noop_witness :
    jsTrim "   " = "" ∧
    AppMain.translateAndSpeak envOk "   " AppMain.init = (AppMain.init, []) :=
  ⟨by decide, translateAndSpeak_blank_noop envOk "   " AppMain.init (by decide)⟩

end Converso

namespace Converso

/-- A variant-controller state with an active listening session and a
previously heard transcript. -/
def listeningVariantSt : Variant.St :=
  { Variant.init with isListening := true, heard := "x", handsFree := false }

/-- C3 counterexample: in the `src/unnamed/part_000` variant,
`startListening` called while `isListening` is already true is not a no-op:
it changes the state (clearing `heard`) and issues another recognizer
`start()` call, because this variant has no guard. -/
theorem variant_startListening_not_noop :
    (Variant.startListening envOk listeningVariantSt).1 ≠ listeningVariantSt ∧
    countStarts (Variant.startListening envOk listeningVariantSt).2 = 1 := by
  decide

/-- C3 (amended): in `src/App.tsx`, whenever `isListening` or `isSpeaking`
is already true, `startListening` is a no-op — same state, no effects, in
particular no recognizer `start()` call — and for every state the
`onSpeechError` handler (the hands-free restart path) issues at most one
new `start()` call. -/
theorem appMain_start_guard (env : Env) (s s' : AppMain.St)
    (h : s.isListening = true ∨ s.isSpeaking = true) :
    AppMain.startListening env s = (s, []) ∧
    countStarts (AppMain.onSpeechError env s').2 ≤ 1 := by
  constructor
  · unfold AppMain.startListening
    rcases h with h | h <;> simp [h]
  · unfold AppMain.onSpeechError AppMain.startListening
    cases hhf : s'.handsFree <;> cases hl : s'.isListening <;>
      cases hsp : s'.isSpeaking <;> cases hp : env.permOk <;>
        cases hv : env.voiceStartFails <;>
          simp [hhf, hl, hsp, hp, hv, countStarts]

/-- A `src/App.tsx` state that is currently listening. -/
def listeningAppSt : AppMain.St := { AppMain.init with isListening := true }

/-- Witness for C3 at a listening state. -/
theorem appMain_start_guard_witness :
    AppMain.startListening envOk listeningAppSt = (listeningAppSt, []) ∧
    countStarts (AppMain.onSpeechError envOk listeningAppSt).2 ≤ 1 :=
  appMain_start_guard envOk listeningAppSt listeningAppSt (Or.inl rfl)

/-- A `src/App.tsx` state with a previous transcript and a previous
translation. -/
def staleTextsSt : AppMain.St :=
  { AppMain.init with heard := "hello", translated := "hallo" }

/-- C4 counterexample: a successful `startListening` call on a state with
`translated = "hallo"` clears `heard` but leaves `translated` equal to
`"hallo"` — `src/App.tsx` never clears `translated` when starting a
session, contradicting the claim that both fields are cleared. -/
theorem startListening_keeps_translated_cex :
    (AppMain.startListening envOk staleTextsSt).1.isListening = true ∧
    (AppMain.startListening envOk staleTextsSt).1.heard = "" ∧
    (AppMain.startListening envOk staleTextsSt).1.translated = "hallo" := by
  decide

/-- C4 (amended): a successful `startListening` call (not already
listening/speaking, permission granted, recognizer start succeeds) clears
`heard` and the stored partial transcript to the empty string before any new
result arrives, but leaves `translated` unchanged. -/
theorem startListening_clears_heard_only (env : Env) (s : AppMain.St)
    (h1 : s.isListening = false) (h2 : s.isSpeaking = false)
    (h3 : env.permOk = true) (h4 : env.voiceStartFails = false) :
    (AppMain.startListening env s).1.isListening = true ∧
    (AppMain.startListening env s).1.heard = "" ∧
    (AppMain.startListening env s).1.interim = "" ∧
    (AppMain.startListening env s).1.translated = s.translated := by
  unfold AppMain.startListening
  simp [h1, h2, h3, h4]

/-- Witness for C4 at the state with stale texts. -/
theorem startListening_clears_heard_only_witness :
    (AppMain.startListening envOk staleTextsSt).1.isListening = true ∧
    (AppMain.startListening envOk staleTextsSt).1.heard = "" ∧
    (AppMain.startListening envOk staleTextsSt).1.interim = "" ∧
    (AppMain.startListening envOk staleTextsSt).1.translated =
      staleTextsSt.translated :=
  startListening_clears_heard_only envOk staleTextsSt rfl rfl rfl rfl

/-- A listening `src/App.tsx` state with hands-free enabled. -/
def listeningHandsFreeSt : AppMain.St :=
  { AppMain.init with isListening := true, handsFree := true }

/-- C5 (code bug, evaluated at the failing input): when a recognizer error
arrives while `isListening = true`, the `src/App.tsx` `onSpeechError`
handler leaves `isListening` set — with hands-free off it does nothing, and
with hands-free on its `startListening` call is blocked by the
still-raised flag — so the error path does not clear the boolean, contrary
to the claim (and to the spec's own error-handling design, which the
`part_000` variant implements by clearing the flag first). -/
theorem speechError_leaves_isListening :
    AppMain.onSpeechError envOk listeningAppSt = (listeningAppSt, []) ∧
    AppMain.onSpeechError envOk listeningHandsFreeSt =
      (listeningHandsFreeSt, []) ∧
    listeningAppSt.isListening = true ∧
    listeningHandsFreeSt.isListening = true := by
  decide

/-- A variant-controller state actively listening with `heard = "hi"` and
hands-free off. -/
def listeningHeardVariantSt : Variant.St :=
  { Variant.init with isListening := true, heard := "hi", handsFree := false }

/-- C6 counterexample: in the `src/unnamed/part_000` variant, the manual
Speak action invokes the translator while the recognizer session is still
active: the recorded translator call carries `whileListening = true` and no
recognizer stop is issued at all. -/
theorem variant_translate_while_listening :
    Eff.translateCall "hi" true ∈
      (Variant.pressSpeakHeard envOk listeningHeardVariantSt).2 ∧
    Eff.voiceStop ∉ (Variant.pressSpeakHeard envOk listeningHeardVariantSt).2 := by
  decide

/-- C6 (amended): in the `src/App.tsx` controller, over every sequence of
operations and events, every translator invocation happens with
`isListening = false` — the recognizer is stopped (`stopListening`
completes, clearing the flag) before `translateText` is called. -/
theorem appMain_no_translate_while_listening
    (tr : List (Env × AppMain.Event)) :
    (AppMain.run tr AppMain.init).2.all notTranslateWhileListening = true :=
  run_effOk tr AppMain.init

end Converso

namespace Converso

/-- C7: when the synthesizer emits `tts-finish` in a speaking state (with
microphone permission still granted and a working recognizer start), the
`src/App.tsx` controller clears `isSpeaking`; if `handsFree` is true it
issues exactly one subsequent recognizer `start()` call and returns to
listening, and if `handsFree` is false it issues nothing and stays idle. -/
theorem ttsFinish_restart_behavior (env : Env) (s : AppMain.St)
    (hperm : env.permOk = true) (hvs : env.voiceStartFails = false)
    (hsp : s.isSpeaking = true) (hli : s.isListening = false) :
    (AppMain.ttsFinish env s).1.isSpeaking = false ∧
    (s.handsFree = true →
      countStarts (AppMain.ttsFinish env s).2 = 1 ∧
      (AppMain.ttsFinish env s).1.isListening = true) ∧
    (s.handsFree = false →
      (AppMain.ttsFinish env s).2 = [] ∧
      (AppMain.ttsFinish env s).1.isListening = false) := by
  unfold AppMain.ttsFinish AppMain.startListening
  cases hhf : s.handsFree <;>
    simp [hperm, hvs, hsp, hli, hhf, countStarts]

/-- A speaking hands-free `src/App.tsx` state. -/
def speakingHandsFreeSt : AppMain.St :=
  { AppMain.init with isSpeaking := true, handsFree := true }

/-- Witness for C7 at a speaking hands-free state. -/
theorem ttsFinish_restart_behavior_witness :
    (AppMain.ttsFinish envOk speakingHandsFreeSt).1.isSpeaking = false ∧
    countStarts (AppMain.ttsFinish envOk speakingHandsFreeSt).2 = 1 ∧
    (AppMain.ttsFinish envOk speakingHandsFreeSt).1.isListening = true :=
  ⟨(ttsFinish_restart_behavior envOk speakingHandsFreeSt rfl rfl rfl rfl).1,
   ((ttsFinish_restart_behavior envOk speakingHandsFreeSt rfl rfl rfl rfl).2.1 rfl).1,
   ((ttsFinish_restart_behavior envOk speakingHandsFreeSt rfl rfl rfl rfl).2.1 rfl).2⟩

/-- An `src/App.tsx` trace with TTS unavailable: a partial result `"hi"`,
then the Translate & Speak button pressed twice. -/
def doubleWarningTrace : List (Env × AppMain.Event) :=
  [(envNoTts, .interimResults (some "hi")),
   (envNoTts, .pressSpeak), (envNoTts, .pressSpeak)]

/-- C8 counterexample: with no synthesizer available, the capability
warning alert is surfaced on every translate-and-speak invocation, not at
most once across the session: two presses of Translate & Speak produce two
warnings. -/
theorem tts_warning_shown_twice :
    countWarnings (AppMain.run doubleWarningTrace AppMain.init).2 = 2 ∧
    ¬countWarnings (AppMain.run doubleWarningTrace AppMain.init).2 ≤ 1 := by
  decide

/-- C8 (amended): with no synthesizer available, after translation
completes `translateAndSpeak` stores the translation in `translated`,
leaves `isSpeaking` unchanged (false in any non-speaking state), surfaces
the capability warning on this invocation (once per invocation, not once
per session), and — if `handsFree` is true and the state is not speaking —
immediately restarts listening with exactly one `start()` call, while with
`handsFree` false it stays idle with no `start()` call. -/
theorem tts_unavailable_branch (env : Env) (text : String) (s : AppMain.St)
    (hts : env.ttsAvailable = false) (hm : jsTrim text ≠ "")
    (hperm : env.permOk = true) (hvs : env.voiceStartFails = false)
    (hsp : s.isSpeaking = false) :
    (AppMain.translateAndSpeak env text s).1.translated =
      translateText (jsTrim text) s.targetLang.code env.fetch ∧
    (AppMain.translateAndSpeak env text s).1.isSpeaking = false ∧
    countWarnings (AppMain.translateAndSpeak env text s).2 = 1 ∧
    (s.handsFree = true →
      (AppMain.translateAndSpeak env text s).1.isListening = true ∧
      countStarts (AppMain.translateAndSpeak env text s).2 = 1) ∧
    (s.handsFree = false →
      (AppMain.translateAndSpeak env text s).1.isListening = false ∧
      countStarts (AppMain.translateAndSpeak env text s).2 = 0) := by
  unfold AppMain.translateAndSpeak AppMain.stopListening AppMain.startListening
  cases hhf : s.handsFree <;>
    simp [hts, hm, hperm, hvs, hsp, hhf, countStarts, countWarnings]

/-- A non-speaking hands-free `src/App.tsx` state for the C8 witness. -/
def handsFreeIdleSt : AppMain.St := { AppMain.init with handsFree := true }

/-- Witness for C8 at input `"hello"` in a hands-free idle state with TTS
unavailable. -/
theorem tts_unavailable_branch_witness :
    (AppMain.translateAndSpeak envNoTts "hello" handsFreeIdleSt).1.translated =
      translateText (jsTrim "hello") handsFreeIdleSt.targetLang.code
        envNoTts.fetch ∧
    (AppMain.translateAndSpeak envNoTts "hello" handsFreeIdleSt).1.isSpeaking
      = false ∧
    countWarnings
      (AppMain.translateAndSpeak envNoTts "hello" handsFreeIdleSt).2 = 1 ∧
    (AppMain.translateAndSpeak envNoTts "hello" handsFreeIdleSt).1.isListening
      = true ∧
    countStarts
      (AppMain.translateAndSpeak envNoTts "hello" handsFreeIdleSt).2 = 1 :=
  ⟨(tts_unavailable_branch envNoTts "hello" handsFreeIdleSt rfl (by decide)
      rfl rfl rfl).1,
   (tts_unavailable_branch envNoTts "hello" handsFreeIdleSt rfl (by decide)
      rfl rfl rfl).2.1,
   (tts_unavailable_branch envNoTts "hello" handsFreeIdleSt rfl (by decide)
      rfl rfl rfl).2.2.1,
   ((tts_unavailable_branch envNoTts "hello" handsFreeIdleSt rfl (by decide)
      rfl rfl rfl).2.2.2.1 rfl).1,
   ((tts_unavailable_branch envNoTts "hello" handsFreeIdleSt rfl (by decide)
      rfl rfl rfl).2.2.2.1 rfl).2⟩

end Converso
